import Mathlib

/-!
Verification of the SeaweedFS-HA-Demo cluster API (`src/api/api.py`).

The Python module is shallowly embedded below.  External collaborators
(the container engine reached through `curl --unix-socket` and the S3
storage gateway reached through `requests` / `boto3`) are passed in as
explicit function arguments, so that every theorem quantifies over their
possible behaviours.  Side effects that the claims talk about (which
network requests a call issues) are made visible as explicit traces.
-/

namespace SeaweedAPI

/-! ## Node identity (api.py, get_full_container_name, lines 719-731) -/

/-- Static short-name to full container-name table (`name_map` in the source). -/
def name_map : List (String × String) :=
  [ ("master1", "seaweedfs-ha-demo-master1-1"),
    ("master2", "seaweedfs-ha-demo-master2-1"),
    ("master3", "seaweedfs-ha-demo-master3-1"),
    ("volume1", "seaweedfs-ha-demo-volume1-1"),
    ("volume2", "seaweedfs-ha-demo-volume2-1"),
    ("volume3", "seaweedfs-ha-demo-volume3-1"),
    ("filer1", "seaweedfs-ha-demo-filer1-1"),
    ("filer2", "seaweedfs-ha-demo-filer2-1") ]

/-- Embeds `get_full_container_name`: `name_map.get(short_name, short_name)`. -/
def get_full_container_name (short_name : String) : String :=
  (name_map.lookup short_name).getD short_name

/-- Node-type classification values used by the spec. -/
inductive NodeType
  | master
  | volume
  | filer
  | unknown
deriving DecidableEq

/-- Character-list core of Python `str.startswith`: the second list is a
prefix of the first. -/
def starts_with_chars : List Char → List Char → Bool
  | _, [] => true
  | [], _ :: _ => false
  | c :: cs, p :: ps => if c = p then starts_with_chars cs ps else false

/-- Embeds Python `s.startswith(pre)`. -/
def starts_with (s pre : String) : Bool :=
  starts_with_chars s.toList pre.toList

/-- Embeds the lexical node-type classification performed by the branch
conditions of `check_container_health` (api.py lines 818-834):
`short_name.startswith` tests for master, volume, filer in that order,
anything else falls to the final `else`. -/
def classify_node (short_name : String) : NodeType :=
  if starts_with short_name "master" then .master
  else if starts_with short_name "volume" then .volume
  else if starts_with short_name "filer" then .filer
  else .unknown

/-! ## Container engine boundary (api.py, get_container_status, lines 734-764)

The code shells out to `curl --unix-socket /var/run/docker.sock`; the result
it inspects is the pair (returncode, stdout), or a timeout exception.  That
observable is the type below.  JSON decoding of the body together with the
`response_data.get(State, empty).get(Running, False)` extraction is
abstracted as a function `parse : String → Option Bool`: `none` models a
`json.JSONDecodeError`, `some b` models a parsed body whose defaulted
`State.Running` flag is `b`. -/

structure CurlResult where
  returncode : Int
  stdout : String
deriving DecidableEq

/-- Embeds Python `str.strip()` with no argument: remove leading and
trailing whitespace. -/
def py_strip (s : String) : String :=
  let cs := s.toList.dropWhile Char.isWhitespace
  String.mk ((cs.reverse.dropWhile Char.isWhitespace).reverse)

inductive EngineResponse
  | timeout
  | ok (r : CurlResult)
deriving DecidableEq

/-- Embeds `get_container_status`.  `engine` maps the full container name to
the curl outcome.  The source tests `result.returncode == 0 and
result.stdout.strip()`, then decodes the body, returning `running` or
`stopped` from the run flag; the `else` branch and every caught exception
(timeout, decode error) return `not_found`. -/
def get_container_status (parse : String → Option Bool)
    (engine : String → EngineResponse) (short_name : String) : String :=
  let container_name := get_full_container_name short_name
  match engine container_name with
  | .timeout => "not_found"
  | .ok r =>
    if r.returncode = 0 ∧ py_strip r.stdout ≠ "" then
      match parse r.stdout with
      | some true => "running"
      | some false => "stopped"
      | none => "not_found"
    else
      "not_found"

/-! ## Health probe (api.py, check_container_health, lines 809-836) -/

/-- Probe URL used for a master node. -/
def master_url (short_name : String) : String :=
  "http://" ++ short_name ++ ":9333/cluster/status"

/-- Probe URL used for a volume node. -/
def volume_url (short_name : String) : String :=
  "http://" ++ short_name ++ ":8080/status"

/-- Probe URL used for a filer node. -/
def filer_url (short_name : String) : String :=
  "http://" ++ short_name ++ ":8888/"

/-- Embeds `check_container_health`.  Besides the verdict string the result
carries the list of URLs actually probed with `urllib.request.urlopen`
(`probe u = true` models a successful open, `false` models any raised
`URLError` / `HTTPError` / `OSError`, all of which the source converts to
`unhealthy`).  The source first consults `get_container_status` and returns
`unhealthy` straight away when the state is not `running`; the probe URLs are
built from the SHORT name, and a name matching none of the three
`startswith` tests returns `unhealthy` without any probe. -/
def check_container_health (parse : String → Option Bool)
    (engine : String → EngineResponse) (probe : String → Bool)
    (short_name : String) : String × List String :=
  let status := get_container_status parse engine short_name
  if status ≠ "running" then
    ("unhealthy", [])
  else if starts_with short_name "master" then
    (if probe (master_url short_name) then "healthy" else "unhealthy",
     [master_url short_name])
  else if starts_with short_name "volume" then
    (if probe (volume_url short_name) then "healthy" else "unhealthy",
     [volume_url short_name])
  else if starts_with short_name "filer" then
    (if probe (filer_url short_name) then "healthy" else "unhealthy",
     [filer_url short_name])
  else
    ("unhealthy", [])

/-! ## Object gateway (api.py, lines 850-955)

The S3 gateway is reached by plain HTTP through `requests`.  A backend is a
function from an issued request to `Except String Nat`: `.ok status` models a
completed HTTP exchange with that status code, `.error msg` models a raised
`requests` exception (caught by the except-Exception handlers of the source).
Each embedded operation also returns the ordered trace of requests it
issued. -/

/-- One HTTP request issued against the S3 gateway. -/
inductive S3Req
  | putBucket (url : String)
  | putObject (url : String) (body : String)
  | deleteObject (url : String)
deriving DecidableEq

/-- Boolean test for bucket-creation requests in a trace. -/
def S3Req.isPutBucket : S3Req → Bool
  | .putBucket _ => true
  | _ => false

/-- Boolean test for object-write requests in a trace. -/
def S3Req.isPutObject : S3Req → Bool
  | .putObject _ _ => true
  | _ => false

/-- Exact text of `lorem_base` in `generate_lorem_ipsum` (api.py line 852);
the string is pure ASCII, so its character count equals its UTF-8 byte
count. -/
def lorem_base : String :=
  "Lorem ipsum dolor sit amet, consectetur adipiscing elit. Sed do eiusmod tempor incididunt ut labore et dolore magna aliqua. Ut enim ad minim veniam, quis nostrud exercitation ullamco laboris nisi ut aliquip ex ea commodo consequat. Duis aute irure dolor in reprehenderit in voluptate velit esse cillum dolore eu fugiat nulla pariatur. Excepteur sint occaecat cupidatat non proident, sunt in culpa qui officia deserunt mollit anim id est laborum."

/-- Embeds `generate_lorem_ipsum` (api.py lines 850-859):
`repetitions = max(1, (size_kb * 1024) // base_size)`, the base text plus a
space repeated that many times, then sliced to `size_kb * 1024`
characters. -/
def generate_lorem_ipsum (size_kb : Nat) : String :=
  let base_size := lorem_base.length
  let repetitions := max 1 ((size_kb * 1024) / base_size)
  let content := String.join (List.replicate repetitions (lorem_base ++ " "))
  String.mk (content.toList.take (size_kb * 1024))

/-- Result dictionary of `create_bucket_object`. -/
structure CreateResult where
  success : Bool
  message : String
  size : String
deriving DecidableEq

/-- Embeds `create_bucket_object` (api.py lines 862-896).  `base_url` stands
for `get_s3_base_url()`.  The source unconditionally issues one bucket PUT
(whose status code is ignored), then one object PUT; success requires the
object PUT to answer 200 or 201; any raised exception short-circuits to the
failure dictionary.  There is no retry of any kind in the source. -/
def create_bucket_object (backend : S3Req → Except String Nat)
    (base_url bucket_name object_key : String) (size_kb : Nat) :
    CreateResult × List S3Req :=
  let content := generate_lorem_ipsum size_kb
  let bucket_url := base_url ++ "/" ++ bucket_name
  let req1 := S3Req.putBucket bucket_url
  match backend req1 with
  | .error e =>
    ({ success := false, message := "Failed to create object: " ++ e,
       size := "0 bytes" }, [req1])
  | .ok _ =>
    let object_url := bucket_url ++ "/" ++ object_key
    let req2 := S3Req.putObject object_url content
    match backend req2 with
    | .error e =>
      ({ success := false, message := "Failed to create object: " ++ e,
         size := "0 bytes" }, [req1, req2])
    | .ok status =>
      if status = 200 ∨ status = 201 then
        ({ success := true,
           message := "Object \x27" ++ object_key ++ "\x27 created in bucket \x27"
             ++ bucket_name ++ "\x27",
           size := toString content.length ++ " bytes" }, [req1, req2])
      else
        ({ success := false,
           message := "Failed to create object: HTTP " ++ toString status,
           size := "0 bytes" }, [req1, req2])

/-- Result dictionary of `read_bucket_object`. -/
structure ReadResult where
  success : Bool
  content : String
  size : String
  last_modified : String
deriving DecidableEq

/-- Embeds the status-200 and error paths of `read_bucket_object`
(api.py lines 899-929) given the gateway reply `(status_code, text)` and
the `Last-Modified` header.  On 200 the returned `content` is truncated to a
500-character preview with a trailing ellipsis when longer than 500, while
`size` always reports the full `len(content)`. -/
def read_bucket_object (status_code : Nat) (text last_modified : String) :
    ReadResult :=
  if status_code = 200 then
    { success := true,
      content := if text.length > 500 then text.take 500 ++ "..." else text,
      size := toString text.length ++ " bytes",
      last_modified := last_modified }
  else
    { success := false, content := "", size := "0 bytes",
      last_modified := "Unknown" }

/-- Result dictionary of `delete_bucket_object`. -/
structure DeleteResult where
  success : Bool
  message : String
deriving DecidableEq

/-- Embeds `delete_bucket_object` (api.py lines 932-955) given the status
code the gateway answers to the object DELETE: success exactly when the
status is 200 or 204. -/
def delete_bucket_object (status_code : Nat) (bucket_name object_key : String) :
    DeleteResult :=
  if status_code = 200 ∨ status_code = 204 then
    { success := true,
      message := "Object \x27" ++ object_key ++ "\x27 deleted from bucket \x27"
        ++ bucket_name ++ "\x27" }
  else
    { success := false,
      message := "Failed to delete object: HTTP " ++ toString status_code }

/-! ## S3 operations listing (api.py, get_s3_operations, lines 979-1040) -/

/-- A `boto3` `ClientError` raised by `list_objects_v2`, reduced to the only
attribute the source inspects: whether its error code is `NoSuchBucket`. -/
inductive ListErr
  | noSuchBucket
  | other
deriving DecidableEq

/-- One object entry of a `list_objects_v2` reply (`Key`, `Size`,
`LastModified` are the fields the source reads). -/
structure ObjRec where
  key : String
  size : Nat
  lastModified : String
deriving DecidableEq

/-- One synthesized operation record. -/
structure Operation where
  type : String
  bucket : String
  object : String
  size : String
  statusCode : Nat
  timestamp : String
deriving DecidableEq

/-- Records contributed by a single bucket inside the `for bucket in
buckets` loop: one LIST/200 record per object on success, one LIST record
with status 404 (`NoSuchBucket`) or 500 (other `ClientError`) on failure. -/
def bucket_records (now : String) (b : String × Except ListErr (List ObjRec)) :
    List Operation :=
  match b.2 with
  | .ok objs =>
    objs.map (fun o =>
      { type := "LIST", bucket := b.1, object := o.key,
        size := toString o.size ++ " bytes", statusCode := 200,
        timestamp := o.lastModified })
  | .error e =>
    [{ type := "LIST", bucket := b.1, object := "", size := "",
       statusCode := if e = ListErr.noSuchBucket then 404 else 500,
       timestamp := now }]

/-- The single INFO record returned when the loop produced nothing. -/
def info_record (now : String) : Operation :=
  { type := "INFO", bucket := "", object := "", size := "", statusCode := 200,
    timestamp := now }

/-- Embeds `get_s3_operations` for a reachable gateway, whose state is given
as the enumerated buckets, each carrying either its object listing or the
`ClientError` its `list_objects_v2` call raised.  `now` stands for
`datetime.now(timezone.utc)` formatted as in the source.  The loop appends
`bucket_records` per bucket; an empty accumulated list is replaced by the
single INFO record. -/
def get_s3_operations (now : String)
    (buckets : List (String × Except ListErr (List ObjRec))) :
    List Operation :=
  let operations := buckets.flatMap (bucket_records now)
  if operations.isEmpty then [info_record now] else operations

/-! ## Request router (api.py, do_GET lines 37-93, do_DELETE lines 112-127) -/

/-- Embeds `parsed_path.path.strip(\x27/\x27)`: remove every leading and
trailing slash. -/
def strip_slashes (s : String) : String :=
  let cs := s.toList.dropWhile (fun c => c = '/')
  String.mk ((cs.reverse.dropWhile (fun c => c = '/')).reverse)

/-- Splits a character list at every slash, Python `str.split(\x27/\x27)`
style: the empty string yields one empty field, adjacent separators yield
empty fields. -/
def split_slash_aux : List Char → List Char → List String
  | [], acc => [String.mk acc.reverse]
  | c :: cs, acc =>
    if c = '/' then String.mk acc.reverse :: split_slash_aux cs []
    else split_slash_aux cs (c :: acc)

/-- Embeds `parsed_path.path.strip(\x27/\x27).split(\x27/\x27)`. -/
def path_parts (path : String) : List String :=
  split_slash_aux (strip_slashes path).toList []

/-- Handler selected by one pass of the GET dispatch chain. -/
inductive GetAction
  | healthCheck
  | openapiSpec
  | apiDocs
  | s3Operations
  | containerHealth (name : String)
  | containerStatus (name : String)
  | s3ObjectRead (bucket key : String)
  | endpointNotFound
deriving DecidableEq

/-- Embeds the FIRST if/elif chain of `do_GET` (api.py lines 41-66). -/
def do_GET_dispatch_a (path : String) : GetAction :=
  let parts := path_parts path
  if path = "/health" then .healthCheck
  else if path = "/api/docs/openapi.json" then .openapiSpec
  else if path = "/api/docs" then .apiDocs
  else if path = "/s3-operations" then .s3Operations
  else if parts.length ≥ 4 ∧ parts.getD 0 "" = "api" ∧ parts.getD 1 "" = "containers"
      ∧ parts.getD 3 "" = "health" then
    .containerHealth (parts.getD 2 "")
  else if parts.length ≥ 3 ∧ parts.getD 0 "" = "api" ∧ parts.getD 1 "" = "containers" then
    .containerStatus (parts.getD 2 "")
  else if parts.length ≥ 3 ∧ parts.getD 0 "" = "containers" ∧ parts.getD 2 "" = "health" then
    .containerHealth (parts.getD 1 "")
  else if parts.length ≥ 2 ∧ parts.getD 0 "" = "containers" then
    .containerStatus (parts.getD 1 "")
  else if parts.length ≥ 5 ∧ parts.getD 0 "" = "api" ∧ parts.getD 1 "" = "s3"
      ∧ parts.getD 2 "" = "buckets" then
    .s3ObjectRead (parts.getD 3 "") (String.intercalate "/" (parts.drop 5))
  else .endpointNotFound

/-- Embeds the SECOND, textually repeated if/elif chain of `do_GET`
(api.py lines 68-93). -/
def do_GET_dispatch_b (path : String) : GetAction :=
  let parts := path_parts path
  if path = "/health" then .healthCheck
  else if path = "/api/docs/openapi.json" then .openapiSpec
  else if path = "/api/docs" then .apiDocs
  else if path = "/s3-operations" then .s3Operations
  else if parts.length ≥ 4 ∧ parts.getD 0 "" = "api" ∧ parts.getD 1 "" = "containers"
      ∧ parts.getD 3 "" = "health" then
    .containerHealth (parts.getD 2 "")
  else if parts.length ≥ 3 ∧ parts.getD 0 "" = "api" ∧ parts.getD 1 "" = "containers" then
    .containerStatus (parts.getD 2 "")
  else if parts.length ≥ 3 ∧ parts.getD 0 "" = "containers" ∧ parts.getD 2 "" = "health" then
    .containerHealth (parts.getD 1 "")
  else if parts.length ≥ 2 ∧ parts.getD 0 "" = "containers" then
    .containerStatus (parts.getD 1 "")
  else if parts.length ≥ 5 ∧ parts.getD 0 "" = "api" ∧ parts.getD 1 "" = "s3"
      ∧ parts.getD 2 "" = "buckets" then
    .s3ObjectRead (parts.getD 3 "") (String.intercalate "/" (parts.drop 5))
  else .endpointNotFound

/-- Embeds `do_GET` (api.py lines 37-93): the handler fired by the first
chain followed by the handler fired by the second chain, in order. -/
def do_GET (path : String) : List GetAction :=
  [do_GET_dispatch_a path, do_GET_dispatch_b path]

/-- Handler selected by the DELETE dispatch chain. -/
inductive DeleteAction
  | containerStop (name : String)
  | s3ObjectDelete (bucket key : String)
  | endpointNotFound
deriving DecidableEq

/-- Embeds the routing of `do_DELETE` (api.py lines 112-127). -/
def do_DELETE_route (path : String) : DeleteAction :=
  let parts := path_parts path
  if parts.length ≥ 3 ∧ parts.getD 0 "" = "api" ∧ parts.getD 1 "" = "containers" then
    .containerStop (parts.getD 2 "")
  else if parts.length ≥ 2 ∧ parts.getD 0 "" = "containers" then
    .containerStop (parts.getD 1 "")
  else if parts.length ≥ 5 ∧ parts.getD 0 "" = "api" ∧ parts.getD 1 "" = "s3"
      ∧ parts.getD 2 "" = "buckets" then
    .s3ObjectDelete (parts.getD 3 "") (String.intercalate "/" (parts.drop 5))
  else .endpointNotFound

/-- HTTP status code written by `do_DELETE` and its handlers when the
gateway answers `gw_status` to the object DELETE: an unmatched path gets
`send_error(404)`, `handle_container_stop` always answers 200, and
`handle_s3_object_delete` answers `200 if result.success else 400`
(api.py line 222). -/
def do_DELETE_response (gw_status : Nat) (path : String) : Nat :=
  match do_DELETE_route path with
  | .endpointNotFound => 404
  | .containerStop _ => 200
  | .s3ObjectDelete bucket key =>
    if (delete_bucket_object gw_status bucket key).success then 200 else 400

/-! ## Concrete demo instances used by scenario theorems -/

/-- Concrete body decoder: the engine replies below encode a parsed body
whose `State.Running` flag is true or false, any other body fails to
decode. -/
def demoParse (s : String) : Option Bool :=
  if s = "RUNNING" then some true
  else if s = "STOPPED" then some false
  else none

/-- Engine that reports every queried container as running. -/
def runningEngine (_full_name : String) : EngineResponse :=
  .ok { returncode := 0, stdout := "RUNNING" }

/-- Modelled from the spec: the container engine itself is an external
collaborator whose wire format is not part of this repository; code that
would fix how it answers a query for a container that DOES NOT EXIST is
missing from src/.  Following the spec boundary for `getStatus` (`not_found`
if the query errors, times out, or the response cannot be parsed), a query
for a name outside the container set of the engine is modelled as an
empty-bodied reply, which `get_container_status` treats as an error. -/
def demoEngine (containers : List (String × Bool)) (full_name : String) :
    EngineResponse :=
  match containers.lookup full_name with
  | some running =>
    .ok { returncode := 0, stdout := if running then "RUNNING" else "STOPPED" }
  | none => .ok { returncode := 0, stdout := "" }

/-- The containers of the demo deployment, all running. -/
def demoContainers : List (String × Bool) :=
  name_map.map (fun p => (p.2, true))

/-- Gateway backend that answers 200 to every request. -/
def all_ok_backend : S3Req → Except String Nat := fun _ => .ok 200

/-- Gateway backend for a gateway holding no such bucket: bucket creation is
accepted, every object write is refused with 404 (the no-such-bucket
reply). -/
def missing_bucket_backend : S3Req → Except String Nat
  | .putBucket _ => .ok 200
  | .putObject _ _ => .ok 404
  | .deleteObject _ => .ok 404

/-! ## Counting helpers for the operations listing -/

/-- Boolean test for a LIST record with status 200. -/
def is_list_200 (op : Operation) : Bool :=
  op.type == "LIST" && op.statusCode == 200

/-- Boolean test for a record carrying the given status code. -/
def has_status (n : Nat) (op : Operation) : Bool :=
  op.statusCode == n

/-- Total number of objects contained in the buckets whose listing
succeeds. -/
def total_objects (buckets : List (String × Except ListErr (List ObjRec))) :
    Nat :=
  (buckets.map (fun b =>
    match b.2 with
    | .ok objs => objs.length
    | .error _ => 0)).sum

/-- Number of buckets whose listing raised the given `ClientError` kind. -/
def count_failures (e : ListErr)
    (buckets : List (String × Except ListErr (List ObjRec))) : Nat :=
  buckets.countP (fun b =>
    match b.2 with
    | .error x => x == e
    | .ok _ => false)

/-! ## Storage for the round-trip claim -/

/-- Modelled from the spec: the storage gateway is an external system whose
durable object store is not code of this repository; the round-trip
property (`putObject(b,k,body)` then `getObject(b,k)` yields `body`)
presupposes that the gateway stores a written body verbatim.  The store maps
a (bucket, key) pair to the stored body. -/
def gateway_put (store : List ((String × String) × String))
    (bucket key body : String) : List ((String × String) × String) :=
  ((bucket, key), body) :: store

/-- Modelled from the spec: the gateway answers a GET for a stored key with
status 200 and the stored body, and 404 with an empty body otherwise. -/
def gateway_get (store : List ((String × String) × String))
    (bucket key : String) : Nat × String :=
  match store.lookup (bucket, key) with
  | some body => (200, body)
  | none => (404, "")

/-! ## Helper lemmas -/

set_option maxRecDepth 4000 in
theorem lorem_base_length : lorem_base.length = 445 := by decide

theorem length_foldl_append (s : String) :
    ∀ (r : Nat) (acc : String),
      (List.foldl (fun a b => a ++ b) acc (List.replicate r s)).length
        = acc.length + r * s.length := by
  intro r
  induction r with
  | zero => intro acc; simp
  | succ n ih =>
    intro acc
    rw [List.replicate_succ, List.foldl_cons, ih (acc ++ s),
      String.length_append]
    ring

theorem length_join_replicate (r : Nat) (s : String) :
    (String.join (List.replicate r s)).length = r * s.length := by
  have h := length_foldl_append s r ""
  simpa [String.join] using h

theorem length_generate_lorem_ipsum (k : Nat) :
    (generate_lorem_ipsum k).length
      = min (k * 1024) (max 1 ((k * 1024) / 445) * 446) := by
  show (String.mk _).length = _
  rw [show (String.mk ((String.join (List.replicate
      (max 1 ((k * 1024) / lorem_base.length)) (lorem_base ++ " "))).toList.take
      (k * 1024))).length
    = ((String.join (List.replicate (max 1 ((k * 1024) / lorem_base.length))
        (lorem_base ++ " "))).data.take (k * 1024)).length from rfl]
  rw [List.length_take]
  have hdata : ∀ s : String, s.data.length = s.length := fun _ => rfl
  rw [hdata, length_join_replicate, String.length_append, lorem_base_length]
  rfl

theorem gen1_len : (generate_lorem_ipsum 1).length = 892 := by
  rw [length_generate_lorem_ipsum]
  decide

theorem countP_flatMap {α β : Type} (p : β → Bool) (f : α → List β) :
    ∀ l : List α, (l.flatMap f).countP p = (l.map (fun a => (f a).countP p)).sum := by
  intro l
  induction l with
  | nil => simp
  | cons a t ih => simp [List.flatMap_cons, List.countP_append, ih]

/-! ## Claim theorems -/

/-- C1: for every node name, when the lifecycle state computed by
`get_container_status` is not `running` (this covers `stopped` and
`not_found`), `check_container_health` answers `unhealthy` — never
`healthy` — for every possible probe outcome, and its probe trace is empty:
no network probe is attempted against a non-running node. -/
theorem nonrunning_node_always_unhealthy
    (parse : String → Option Bool) (engine : String → EngineResponse)
    (probe : String → Bool) (short_name : String)
    (h : get_container_status parse engine short_name ≠ "running") :
    check_container_health parse engine probe short_name = ("unhealthy", []) := by
  simp [check_container_health, h]

theorem nonrunning_node_always_unhealthy_witness :
    check_container_health (fun _ => none) (fun _ => EngineResponse.timeout)
      (fun _ => true) "master1" = ("unhealthy", []) :=
  nonrunning_node_always_unhealthy (fun _ => none)
    (fun _ => EngineResponse.timeout) (fun _ => true) "master1" (by decide)

/-- C5 counterexample: the short name `master9` is absent from the static
table and passes through unchanged, but the lexical classifier used by the
code assigns it node type `master`, not `unknown`, refuting the claim that
every name absent from the table resolves with node type `unknown`. -/
theorem resolve_absent_name_cex :
    name_map.lookup "master9" = none ∧
    get_full_container_name "master9" = "master9" ∧
    classify_node "master9" = NodeType.master ∧
    NodeType.master ≠ NodeType.unknown := by
  refine ⟨by decide, by decide, by decide, by decide⟩

/-- C5 amended: every short name in the static table resolves to its mapped
full container name and the lexical classifier assigns it the node type
matching its role; every name absent from the table passes through
unchanged (resolution never fails); the node type is determined solely by
the lexical rule, so it is `unknown` exactly when the name starts with none
of the three role markers — a name absent from the table may still classify
as master, volume or filer. -/
theorem resolve_static_table :
    (∀ p ∈ name_map, get_full_container_name p.1 = p.2) ∧
    (classify_node "master1" = .master ∧ classify_node "master2" = .master ∧
     classify_node "master3" = .master ∧ classify_node "volume1" = .volume ∧
     classify_node "volume2" = .volume ∧ classify_node "volume3" = .volume ∧
     classify_node "filer1" = .filer ∧ classify_node "filer2" = .filer) ∧
    (∀ s, name_map.lookup s = none → get_full_container_name s = s) ∧
    (∀ s, classify_node s = .unknown ↔
      (starts_with s "master" = false ∧ starts_with s "volume" = false ∧
       starts_with s "filer" = false)) := by
  refine ⟨by decide, by decide, ?_, ?_⟩
  · intro s h
    simp [get_full_container_name, h]
  · intro s
    unfold classify_node
    by_cases h1 : starts_with s "master" <;>
      by_cases h2 : starts_with s "volume" <;>
        by_cases h3 : starts_with s "filer" <;>
          simp [h1, h2, h3]

theorem resolve_static_table_witness :
    get_full_container_name "unknownnode" = "unknownnode" :=
  resolve_static_table.2.2.1 "unknownnode" (by decide)

/-- C3: over every engine behaviour, `get_container_status` answers
`running` exactly when the engine reply for the resolved container name is
a zero-returncode, nonblank, decodable body whose run flag is true;
`stopped` exactly when the run flag of such a body is false; `not_found` in
every remaining case — error exit status, blank output, timeout, or
undecodable body.  In the demo model, whose engine knows no container named
`unknownnode`, the status of `unknownnode` is `not_found`. -/
theorem get_container_status_cases :
    (∀ (parse : String → Option Bool) (engine : String → EngineResponse)
        (name : String),
      (get_container_status parse engine name = "running" ↔
        ∃ r, engine (get_full_container_name name) = .ok r ∧
          r.returncode = 0 ∧ py_strip r.stdout ≠ "" ∧
          parse r.stdout = some true) ∧
      (get_container_status parse engine name = "stopped" ↔
        ∃ r, engine (get_full_container_name name) = .ok r ∧
          r.returncode = 0 ∧ py_strip r.stdout ≠ "" ∧
          parse r.stdout = some false) ∧
      (get_container_status parse engine name = "not_found" ↔
        ¬ ∃ r b, engine (get_full_container_name name) = .ok r ∧
          r.returncode = 0 ∧ py_strip r.stdout ≠ "" ∧
          parse r.stdout = some b)) ∧
    get_container_status demoParse (demoEngine demoContainers) "unknownnode"
      = "not_found" := by
  constructor
  · intro parse engine name
    rcases hE : engine (get_full_container_name name) with _ | r
    · simp [get_container_status, hE]
    · by_cases hrc : r.returncode = 0 ∧ py_strip r.stdout ≠ ""
      · rcases hp : parse r.stdout with _ | b
        · simp [get_container_status, hE, hrc, hp]
        · rcases b <;> simp [get_container_status, hE, hrc, hp]
      · simp [get_container_status, hE, hrc]
        refine ⟨?_, ?_, ?_⟩ <;> intro h0 hs <;> exact (hrc ⟨h0, hs⟩).elim
  · decide

theorem get_container_status_cases_witness :
    get_container_status demoParse runningEngine "master1" = "running" :=
  ((get_container_status_cases.1 demoParse runningEngine "master1").1).mpr
    ⟨{ returncode := 0, stdout := "RUNNING" }, rfl, rfl, by decide, rfl⟩

/-- C4 counterexample: the node named `s3node` is reported running by the
engine and its name contains the storage-gateway marker `s3`, yet
`check_container_health` answers `unhealthy` and issues no probe at all:
the code has no gateway branch (no port 8333, no 200-or-403 acceptance),
and an unclassifiable running name yields `unhealthy`, never the claimed
`unknown`. -/
theorem health_probe_policy_cex :
    get_container_status demoParse runningEngine "s3node" = "running" ∧
    check_container_health demoParse runningEngine (fun _ => true) "s3node"
      = ("unhealthy", []) := by
  refine ⟨by decide, by decide⟩

/-- C4 amended: for every node the engine reports running, the health check
follows a `startswith` policy on the SHORT name (not substring containment,
and not the resolved full name): a name starting with `master` gets exactly
one GET on `http://{shortName}:9333/cluster/status`, with `volume` exactly
one GET on `http://{shortName}:8080/status`, with `filer` exactly one GET on
`http://{shortName}:8888/`, healthy exactly when that single probe
succeeds; every other running name — including gateway-marked names
containing `s3` — yields `unhealthy` with no probe; at most one URL is ever
probed and the verdict `unknown` is never produced. -/
theorem health_probe_policy
    (parse : String → Option Bool) (engine : String → EngineResponse)
    (probe : String → Bool) (short_name : String)
    (h : get_container_status parse engine short_name = "running") :
    check_container_health parse engine probe short_name =
      (if starts_with short_name "master" then
        (if probe (master_url short_name) then "healthy" else "unhealthy",
         [master_url short_name])
       else if starts_with short_name "volume" then
        (if probe (volume_url short_name) then "healthy" else "unhealthy",
         [volume_url short_name])
       else if starts_with short_name "filer" then
        (if probe (filer_url short_name) then "healthy" else "unhealthy",
         [filer_url short_name])
       else ("unhealthy", [])) ∧
    (check_container_health parse engine probe short_name).2.length ≤ 1 ∧
    (check_container_health parse engine probe short_name).1 ≠ "unknown" := by
  have hmain : check_container_health parse engine probe short_name =
      (if starts_with short_name "master" then
        (if probe (master_url short_name) then "healthy" else "unhealthy",
         [master_url short_name])
       else if starts_with short_name "volume" then
        (if probe (volume_url short_name) then "healthy" else "unhealthy",
         [volume_url short_name])
       else if starts_with short_name "filer" then
        (if probe (filer_url short_name) then "healthy" else "unhealthy",
         [filer_url short_name])
       else ("unhealthy", [])) := by
    simp [check_container_health, h]
  refine ⟨hmain, ?_, ?_⟩ <;> rw [hmain] <;>
    by_cases h1 : starts_with short_name "master" <;>
      by_cases h2 : starts_with short_name "volume" <;>
        by_cases h3 : starts_with short_name "filer" <;>
          simp [h1, h2, h3] <;> split <;> simp

theorem health_probe_policy_witness :
    check_container_health demoParse runningEngine (fun _ => true) "master1"
      = ("healthy", [master_url "master1"]) := by
  have h := (health_probe_policy demoParse runningEngine (fun _ => true)
    "master1" (by decide)).1
  rw [h]
  decide

/-- C10: for every GET request path, `do_GET` runs its dispatch chain twice
in sequence: the trace of fired handlers always has length two, and both
entries are the same handler (the matched one, or the 404 error path for an
unmatched path), so backend side effects happen twice and two complete HTTP
responses are written to the same connection. -/
theorem do_GET_double_dispatch (path : String) :
    do_GET path = [do_GET_dispatch_a path, do_GET_dispatch_a path] ∧
    (do_GET path).length = 2 :=
  ⟨rfl, rfl⟩

/-- C2 counterexample: against a gateway that has no such bucket (object
writes answer 404), a call of `create_bucket_object` issues exactly ONE
object write and reports failure — the claimed create-and-retry after a
bucket-missing write failure never happens, so the write is not retried
exactly once. -/
theorem create_no_retry_cex :
    ((create_bucket_object missing_bucket_backend "http://nginx:9333" "demo"
      "file.txt" 0).2.countP S3Req.isPutObject = 1) ∧
    ((create_bucket_object missing_bucket_backend "http://nginx:9333" "demo"
      "file.txt" 0).1.success = false) := by
  refine ⟨by decide, by decide⟩

/-- C2 amended: `create_bucket_object` issues exactly one bucket-create per
call, unconditionally and BEFORE the write rather than in reaction to a
write failure, followed by at most one object write; there is no retry of
any kind, and the call succeeds exactly when the bucket-create does not
raise and the single write completes with status 200 or 201 — any write
failure (including bucket-does-not-exist) surfaces as a failure result. -/
theorem create_bucket_object_single_attempt
    (backend : S3Req → Except String Nat)
    (base_url bucket key : String) (size_kb : Nat) :
    ((create_bucket_object backend base_url bucket key size_kb).2.countP
      S3Req.isPutBucket = 1) ∧
    ((create_bucket_object backend base_url bucket key size_kb).2.countP
      S3Req.isPutObject ≤ 1) ∧
    ((create_bucket_object backend base_url bucket key size_kb).1.success
        = true ↔
      (∃ st1, backend (S3Req.putBucket (base_url ++ "/" ++ bucket))
        = .ok st1) ∧
      (∃ st2, backend (S3Req.putObject (base_url ++ "/" ++ bucket ++ "/" ++ key)
          (generate_lorem_ipsum size_kb)) = .ok st2 ∧
        (st2 = 200 ∨ st2 = 201))) := by
  rcases h1 : backend (S3Req.putBucket (base_url ++ "/" ++ bucket))
    with e1 | st1
  · simp [create_bucket_object, h1, S3Req.isPutBucket, S3Req.isPutObject,
      List.countP_cons]
  · rcases h2 : backend (S3Req.putObject
        (base_url ++ "/" ++ bucket ++ "/" ++ key)
        (generate_lorem_ipsum size_kb)) with e2 | st2
    · simp [create_bucket_object, h1, h2, S3Req.isPutBucket,
        S3Req.isPutObject, List.countP_cons]
    · by_cases hst : st2 = 200 ∨ st2 = 201
      · simp [create_bucket_object, h1, h2, hst, S3Req.isPutBucket,
          S3Req.isPutObject, List.countP_cons]
      · simp [create_bucket_object, h1, h2, hst, S3Req.isPutBucket,
          S3Req.isPutObject, List.countP_cons]

theorem create_bucket_object_single_attempt_witness :
    (create_bucket_object all_ok_backend "http://nginx:9333" "demo" "file.txt"
      0).1.success = true :=
  ((create_bucket_object_single_attempt all_ok_backend "http://nginx:9333"
    "demo" "file.txt" 0).2.2).mpr ⟨⟨200, rfl⟩, ⟨200, rfl, Or.inl rfl⟩⟩

/-- C9 counterexample: the claimed mapping of missing delete targets to
HTTP 404 fails on both counts — `DELETE /api/s3/buckets/nonexistent`
matches no route at all (the router falls through to the generic 404
endpoint-not-found error, which it equally does for a bucket that exists),
and an object delete whose gateway reply is 404 (missing bucket or key) is
reported with HTTP status 400, not 404. -/
theorem delete_missing_cex :
    do_DELETE_route "/api/s3/buckets/demo" = DeleteAction.endpointNotFound ∧
    do_DELETE_response 404 "/api/s3/buckets/nonexistent/objects/file.txt"
      = 400 := by
  refine ⟨by decide, by decide⟩

/-- C9 amended: there is no bucket-delete endpoint: a DELETE of
`/api/s3/buckets/{bucket}` (bucket containing no slash) matches no route
and is answered by the generic 404 endpoint-not-found router error
regardless of whether the bucket exists; an object delete reaches
`delete_bucket_object`, which reports failure for every gateway status
other than 200 and 204 — so 404 (missing bucket or key) gives failure —
and the handler maps that failure to HTTP 400, never 404. -/
theorem delete_response_policy :
    do_DELETE_route "/api/s3/buckets/nonexistent"
      = DeleteAction.endpointNotFound ∧
    do_DELETE_response 500 "/api/s3/buckets/nonexistent" = 404 ∧
    (∀ st bucket key, st ≠ 200 → st ≠ 204 →
      (delete_bucket_object st bucket key).success = false) ∧
    do_DELETE_route "/api/s3/buckets/b1/objects/k1"
      = DeleteAction.s3ObjectDelete "b1" "k1" ∧
    do_DELETE_response 404 "/api/s3/buckets/b1/objects/k1" = 400 := by
  refine ⟨by decide, by decide, ?_, by decide, by decide⟩
  intro st bucket key h200 h204
  have : ¬(st = 200 ∨ st = 204) := by
    rintro (h | h) <;> [exact h200 h; exact h204 h]
  simp [delete_bucket_object, this]

theorem delete_response_policy_witness :
    (delete_bucket_object 404 "nonexistent" "file.txt").success = false :=
  delete_response_policy.2.2.1 404 "nonexistent" "file.txt"
    (by decide) (by decide)

theorem countP_get_s3_operations (now : String) (p : Operation → Bool)
    (buckets : List (String × Except ListErr (List ObjRec)))
    (hinfo : p (info_record now) = false) :
    (get_s3_operations now buckets).countP p
      = (buckets.flatMap (bucket_records now)).countP p := by
  unfold get_s3_operations
  by_cases hemp : (buckets.flatMap (bucket_records now)).isEmpty
  · rw [List.isEmpty_iff] at hemp
    simp [hemp, List.countP_cons, hinfo]
  · simp [hemp]

theorem bucket_counts (now : String)
    (b : String × Except ListErr (List ObjRec)) :
    ((bucket_records now b).countP is_list_200
      = match b.2 with
        | .ok objs => objs.length
        | .error _ => 0) ∧
    ((bucket_records now b).countP (has_status 404)
      = match b.2 with
        | .ok _ => 0
        | .error x => if x == ListErr.noSuchBucket then 1 else 0) ∧
    ((bucket_records now b).countP (has_status 500)
      = match b.2 with
        | .ok _ => 0
        | .error x => if x == ListErr.noSuchBucket then 0 else 1) := by
  rcases hb : b.2 with e | objs
  · rcases e <;>
      simp [bucket_records, hb, is_list_200, has_status, List.countP_cons]
  · simp only [bucket_records, hb]
    refine ⟨?_, ?_, ?_⟩ <;>
      · rw [List.countP_map]
        simp [is_list_200, has_status, Function.comp_def, List.countP_true,
          List.countP_false]

/-- C6: for a reachable gateway in any state, `get_s3_operations` returns
exactly one LIST record with status 200 per object across all buckets whose
listing succeeds, plus exactly one LIST-kind error record per failing
bucket — status 404 when the failure is NoSuchBucket, 500 otherwise — so a
per-bucket failure never aborts the whole call; and when no buckets exist
at all it returns exactly the single INFO record rather than an empty
list. -/
theorem list_operations_counts :
    (∀ now, get_s3_operations now [] = [info_record now]) ∧
    (∀ now buckets,
      ((get_s3_operations now buckets).countP is_list_200
        = total_objects buckets) ∧
      ((get_s3_operations now buckets).countP (has_status 404)
        = count_failures ListErr.noSuchBucket buckets) ∧
      ((get_s3_operations now buckets).countP (has_status 500)
        = count_failures ListErr.other buckets)) := by
  refine ⟨fun now => rfl, fun now buckets => ?_⟩
  have h200 : is_list_200 (info_record now) = false := by
    simp [is_list_200, info_record]
  have h404 : has_status 404 (info_record now) = false := by
    simp [has_status, info_record]
  have h500 : has_status 500 (info_record now) = false := by
    simp [has_status, info_record]
  rw [countP_get_s3_operations now _ _ h200,
    countP_get_s3_operations now _ _ h404,
    countP_get_s3_operations now _ _ h500]
  clear h200 h404 h500
  induction buckets with
  | nil => simp [total_objects, count_failures]
  | cons b t ih =>
    rw [List.flatMap_cons]
    have hc := bucket_counts now b
    refine ⟨?_, ?_, ?_⟩ <;>
      rw [List.countP_append] <;>
      rcases hb : b.2 with e | objs
    · rw [hc.1, ih.1]
      simp [total_objects, hb]
    · rw [hc.1, ih.1]
      simp [total_objects, hb]
    · rw [hc.2.1, ih.2.1]
      rcases e <;> simp [count_failures, hb, List.countP_cons, Nat.add_comm]
    · rw [hc.2.1, ih.2.1]
      simp [count_failures, hb, List.countP_cons]
    · rw [hc.2.2, ih.2.2]
      rcases e <;> simp [count_failures, hb, List.countP_cons, Nat.add_comm]
    · rw [hc.2.2, ih.2.2]
      simp [count_failures, hb, List.countP_cons]

/-- C7: the scenario `POST /api/s3/buckets/demo/objects/file.txt?size_kb=1`
with an empty body reaches `create_bucket_object("demo", "file.txt", 1)`;
with every upstream write succeeding, the response does report success for
bucket demo and key file.txt, but the synthesized content measures 892
bytes, not the 1024 the specification states: `generate_lorem_ipsum`
computes `repetitions = max(1, 1024 // 445) = 2`, giving
`(445 + 1) * 2 = 892 < 1024` characters, so the final slice to 1024
characters has nothing left to cut and the source comment `Trim to exact
size` is not honoured — the floor division undershoots whenever
`size_kb * 1024` is not close to a multiple of 446. -/
theorem create_demo_object_size :
    ((create_bucket_object all_ok_backend "http://nginx:9333" "demo"
        "file.txt" 1).1.success = true) ∧
    ((create_bucket_object all_ok_backend "http://nginx:9333" "demo"
        "file.txt" 1).1.message
      = "Object \x27file.txt\x27 created in bucket \x27demo\x27") ∧
    ((create_bucket_object all_ok_backend "http://nginx:9333" "demo"
        "file.txt" 1).1.size = "892 bytes") ∧
    (generate_lorem_ipsum 1).length ≠ 1024 := by
  have hval : (create_bucket_object all_ok_backend "http://nginx:9333" "demo"
      "file.txt" 1).1 =
    { success := true,
      message := "Object \x27file.txt\x27 created in bucket \x27demo\x27",
      size := toString (generate_lorem_ipsum 1).length ++ " bytes" } := by
    simp [create_bucket_object, all_ok_backend]
  rw [hval, gen1_len]
  refine ⟨rfl, rfl, by decide, by decide⟩

/-- C8: for every store, bucket, key and body, reading back an object just
written through the gateway model reports `size` equal to the length of the
FULL stored body, independent of any truncation; the returned display
content is the body itself when it has at most 500 characters and otherwise
the first 500 characters with an appended ellipsis — the preview policy
applies only to the `content` field and never to the reported size. -/
theorem read_after_write_roundtrip
    (store : List ((String × String) × String)) (bucket key body lm : String) :
    ((read_bucket_object
        (gateway_get (gateway_put store bucket key body) bucket key).1
        (gateway_get (gateway_put store bucket key body) bucket key).2
        lm).success = true) ∧
    ((read_bucket_object
        (gateway_get (gateway_put store bucket key body) bucket key).1
        (gateway_get (gateway_put store bucket key body) bucket key).2
        lm).size = toString body.length ++ " bytes") ∧
    ((read_bucket_object
        (gateway_get (gateway_put store bucket key body) bucket key).1
        (gateway_get (gateway_put store bucket key body) bucket key).2
        lm).content
      = if body.length > 500 then body.take 500 ++ "..." else body) := by
  have hget : gateway_get (gateway_put store bucket key body) bucket key
      = (200, body) := by
    simp [gateway_put, gateway_get]
  rw [hget]
  simp [read_bucket_object]

end SeaweedAPI
